import Mathlib

/-!
Verification of the x12-delimiters crate.

The crate consists of two source files: `src/lib.rs` defines the value type
`Delimiters` with its constructor `new`, the fixed-offset extractor `from_isa`,
three accessors, the validity predicate `are_valid` and the `Default` instance;
`src/errors.rs` defines the single error kind `DelimiterError::InvalidIsaLength`
together with its `Display` message.

Bytes (Rust `u8`) are modelled as `Nat`; no arithmetic is performed on them in
the source, only indexing and equality comparison, so no wrap-around modelling
is needed.  Byte slices (`&[u8]`) are modelled as `List Nat`.  The fallible
extractor returns `Except DelimiterError Delimiters`, mirroring
`Result<Delimiters, DelimiterError>`.
-/

namespace X12

/-- Bytes are natural numbers; every value the source stores is a `u8` read
from the input, never computed, so no modular reduction is needed. -/
abbrev Byte := Nat

/-- The single error kind of `src/errors.rs` (`enum DelimiterError`). -/
inductive DelimiterError where
  | InvalidIsaLength
deriving DecidableEq, Repr

/-- The `Display` implementation of `DelimiterError` in `src/errors.rs`:
each variant formats to a fixed human-readable message. -/
def DelimiterError.displayMessage : DelimiterError → String
  | DelimiterError.InvalidIsaLength =>
      "ISA segment must be at least 106 bytes long to extract delimiters"

/-- Constant `DEFAULT_SEGMENT_TERMINATOR: u8 = b'~'` (byte 126). -/
def DEFAULT_SEGMENT_TERMINATOR : Byte := 126

/-- Constant `DEFAULT_ELEMENT_SEPARATOR: u8 = b'*'` (byte 42). -/
def DEFAULT_ELEMENT_SEPARATOR : Byte := 42

/-- Constant `DEFAULT_SUB_ELEMENT_SEPARATOR: u8 = b':'` (byte 58). -/
def DEFAULT_SUB_ELEMENT_SEPARATOR : Byte := 58

/-- Constant `ISA_MIN_LENGTH: usize = 106`. -/
def ISA_MIN_LENGTH : Nat := 106

/-- Constant `ISA_ELEMENT_SEPARATOR_INDEX: usize = 3`. -/
def ISA_ELEMENT_SEPARATOR_INDEX : Nat := 3

/-- Constant `ISA_SUB_ELEMENT_SEPARATOR_INDEX: usize = 104`. -/
def ISA_SUB_ELEMENT_SEPARATOR_INDEX : Nat := 104

/-- Constant `ISA_SEGMENT_TERMINATOR_INDEX: usize = 105`. -/
def ISA_SEGMENT_TERMINATOR_INDEX : Nat := 105

/-- The struct `Delimiters` of `src/lib.rs`: three single-byte fields.
The derived `PartialEq`/`Eq` is structural equality, which is exactly the
propositional equality of this structure (`DecidableEq` is derived). -/
structure Delimiters where
  segment_terminator : Byte
  element_separator : Byte
  sub_element_separator : Byte
deriving DecidableEq, Repr

/-- `Delimiters::new`: stores the three arguments in the corresponding
fields, with no validation. -/
def Delimiters.new (segment_terminator element_separator sub_element_separator : Byte) :
    Delimiters :=
  { segment_terminator := segment_terminator
    element_separator := element_separator
    sub_element_separator := sub_element_separator }

/-- `Delimiters::from_isa`: rejects inputs shorter than `ISA_MIN_LENGTH`
with `InvalidIsaLength`, otherwise reads the bytes at the three fixed
offsets.  In the source the reads `isa_segment[i]` are in bounds whenever
the length guard passes; `List.getD` with default 0 agrees with the source
index operation on every reachable read. -/
def Delimiters.from_isa (isa_segment : List Byte) : Except DelimiterError Delimiters :=
  if isa_segment.length < ISA_MIN_LENGTH then
    Except.error DelimiterError.InvalidIsaLength
  else
    let element_separator := isa_segment.getD ISA_ELEMENT_SEPARATOR_INDEX 0
    let sub_element_separator := isa_segment.getD ISA_SUB_ELEMENT_SEPARATOR_INDEX 0
    let segment_terminator := isa_segment.getD ISA_SEGMENT_TERMINATOR_INDEX 0
    Except.ok
      { element_separator := element_separator
        sub_element_separator := sub_element_separator
        segment_terminator := segment_terminator }

/-- `Delimiters::are_valid`: true exactly when the three stored bytes are
pairwise distinct, written as the same three inequality conjuncts as the
source. -/
def Delimiters.are_valid (d : Delimiters) : Bool :=
  (d.segment_terminator != d.element_separator) &&
  (d.segment_terminator != d.sub_element_separator) &&
  (d.element_separator != d.sub_element_separator)

/-- The `Default` implementation for `Delimiters` in `src/lib.rs`. -/
def Delimiters.defaultValue : Delimiters :=
  { segment_terminator := DEFAULT_SEGMENT_TERMINATOR
    element_separator := DEFAULT_ELEMENT_SEPARATOR
    sub_element_separator := DEFAULT_SUB_ELEMENT_SEPARATOR }

/-- The sample ISA header `SAMPLE_ISA_SEGMENT_STANDARD` from the test module
of `src/lib.rs`, as its byte values. -/
def SAMPLE_ISA_SEGMENT_STANDARD : List Byte :=
  ("ISA*00*          *00*          *ZZ*SENDERID       *ZZ*RECEIVERID     *250403*0856*U*00501*000000001*0*P*:~").data.map Char.toNat

/-- Helper: on any input of length at least 106, `from_isa` succeeds and
returns exactly the bytes at offsets 105, 3, 104 in the roles segment
terminator, element separator, sub-element separator. -/
theorem from_isa_ok_of_le (bs : List Byte) (h : 106 ≤ bs.length) :
    Delimiters.from_isa bs =
      Except.ok (Delimiters.new (bs.getD 105 0) (bs.getD 3 0) (bs.getD 104 0)) := by
  unfold Delimiters.from_isa
  rw [if_neg (by simp only [ISA_MIN_LENGTH]; omega)]
  rfl

/-- Helper: on any input of length below 106, `from_isa` fails with
`InvalidIsaLength`. -/
theorem from_isa_error_of_lt (bs : List Byte) (h : bs.length < 106) :
    Delimiters.from_isa bs = Except.error DelimiterError.InvalidIsaLength := by
  unfold Delimiters.from_isa
  rw [if_pos (by simp only [ISA_MIN_LENGTH]; omega)]

/-- Claim C1, counterexample: the claim calls the sample header from the test
module a 118-byte header, but that header is exactly 106 bytes long. -/
theorem sample_header_is_106_bytes_not_118 :
    SAMPLE_ISA_SEGMENT_STANDARD.length = 106 ∧ SAMPLE_ISA_SEGMENT_STANDARD.length ≠ 118 := by
  decide

/-- Claim C1 (amended): for every byte sequence of length at least 106,
`from_isa` succeeds and returns a set whose element separator is the byte at
offset 3, sub-element separator the byte at offset 104, and segment terminator
the byte at offset 105, regardless of any other bytes or the total length; in
particular the 106-byte sample header yields element separator 42, sub-element
separator 58 and segment terminator 126. -/
theorem from_isa_reads_fixed_offsets (bs : List Byte) (h : 106 ≤ bs.length) :
    (Delimiters.from_isa bs =
      Except.ok
        { segment_terminator := bs.getD 105 0
          element_separator := bs.getD 3 0
          sub_element_separator := bs.getD 104 0 }) ∧
    SAMPLE_ISA_SEGMENT_STANDARD.length = 106 ∧
    Delimiters.from_isa SAMPLE_ISA_SEGMENT_STANDARD =
      Except.ok
        { segment_terminator := 126
          element_separator := 42
          sub_element_separator := 58 } := by
  refine ⟨from_isa_ok_of_le bs h, by decide, ?_⟩
  rw [from_isa_ok_of_le SAMPLE_ISA_SEGMENT_STANDARD (by decide)]
  rfl

/-- Claim C1 witness: the amended theorem applied to the sample header. -/
theorem from_isa_reads_fixed_offsets_witness :
    106 ≤ SAMPLE_ISA_SEGMENT_STANDARD.length ∧
    ((Delimiters.from_isa SAMPLE_ISA_SEGMENT_STANDARD =
      Except.ok
        { segment_terminator := SAMPLE_ISA_SEGMENT_STANDARD.getD 105 0
          element_separator := SAMPLE_ISA_SEGMENT_STANDARD.getD 3 0
          sub_element_separator := SAMPLE_ISA_SEGMENT_STANDARD.getD 104 0 }) ∧
    SAMPLE_ISA_SEGMENT_STANDARD.length = 106 ∧
    Delimiters.from_isa SAMPLE_ISA_SEGMENT_STANDARD =
      Except.ok
        { segment_terminator := 126
          element_separator := 42
          sub_element_separator := 58 }) :=
  ⟨by decide, from_isa_reads_fixed_offsets SAMPLE_ISA_SEGMENT_STANDARD (by decide)⟩

/-- Claim C2: `from_isa` fails with `InvalidIsaLength` exactly on inputs
strictly shorter than 106 bytes; a 106-byte input succeeds, a 105-byte input
fails, and on failure no partial result is returned (the error constructor
carries no delimiter value). -/
theorem from_isa_length_guard (bs : List Byte) :
    (Delimiters.from_isa bs = Except.error DelimiterError.InvalidIsaLength ↔
      bs.length < 106) ∧
    (∃ d, Delimiters.from_isa (List.replicate 106 88) = Except.ok d) ∧
    Delimiters.from_isa (List.replicate 105 88) =
      Except.error DelimiterError.InvalidIsaLength := by
  refine ⟨⟨?_, fun h => from_isa_error_of_lt bs h⟩, ?_, ?_⟩
  · intro h
    by_contra hlen
    rw [from_isa_ok_of_le bs (by omega)] at h
    exact Except.noConfusion h
  · exact ⟨_, from_isa_ok_of_le _ (by decide)⟩
  · exact from_isa_error_of_lt _ (by decide)

/-- Claim C3: `are_valid` returns true exactly when the three held byte
values are pairwise distinct; whenever any two coincide it returns false. -/
theorem are_valid_iff_pairwise_distinct (d : Delimiters) :
    (d.are_valid = true ↔
      (d.segment_terminator ≠ d.element_separator ∧
       d.segment_terminator ≠ d.sub_element_separator ∧
       d.element_separator ≠ d.sub_element_separator)) ∧
    (d.segment_terminator = d.element_separator ∨
     d.segment_terminator = d.sub_element_separator ∨
     d.element_separator = d.sub_element_separator → d.are_valid = false) := by
  constructor
  · simp [Delimiters.are_valid, and_assoc]
  · intro h
    simp only [Delimiters.are_valid]
    rcases h with h | h | h <;> simp [h]

/-- Claim C4: the `Default` implementation always returns segment terminator
126, element separator 42, sub-element separator 58, and `are_valid` on this
default value is true. -/
theorem default_value_and_validity :
    Delimiters.defaultValue =
      { segment_terminator := 126
        element_separator := 42
        sub_element_separator := 58 } ∧
    Delimiters.defaultValue.are_valid = true := by
  exact ⟨rfl, rfl⟩

/-- Claim C5: for every triple of byte values, `new` followed by the three
accessors returns exactly the inputs in order, and rebuilding a set from the
accessor values of another set yields an equal set. -/
theorem new_accessors_round_trip (a b c : Byte) :
    (Delimiters.new a b c).segment_terminator = a ∧
    (Delimiters.new a b c).element_separator = b ∧
    (Delimiters.new a b c).sub_element_separator = c ∧
    Delimiters.new (Delimiters.new a b c).segment_terminator
        (Delimiters.new a b c).element_separator
        (Delimiters.new a b c).sub_element_separator = Delimiters.new a b c := by
  exact ⟨rfl, rfl, rfl, rfl⟩

/-- Claim C6: equality of delimiter sets is structural: two sets are equal
exactly when all three fields match, and replacing any one field leaves the
set equal to the original exactly when the replacement equals that field. -/
theorem eq_iff_fields_eq (d₁ d₂ : Delimiters) (x : Byte) :
    (d₁ = d₂ ↔
      (d₁.segment_terminator = d₂.segment_terminator ∧
       d₁.element_separator = d₂.element_separator ∧
       d₁.sub_element_separator = d₂.sub_element_separator)) ∧
    ({ d₁ with segment_terminator := x } = d₁ ↔ x = d₁.segment_terminator) ∧
    ({ d₁ with element_separator := x } = d₁ ↔ x = d₁.element_separator) ∧
    ({ d₁ with sub_element_separator := x } = d₁ ↔ x = d₁.sub_element_separator) := by
  cases d₁
  cases d₂
  simp [Delimiters.mk.injEq, and_assoc]

/-- Claim C7, counterexample: the message attached to `InvalidIsaLength` is
not the one the claim states. -/
theorem error_message_not_as_claimed :
    DelimiterError.displayMessage DelimiterError.InvalidIsaLength ≠
      "header must be at least 106 bytes to extract delimiters" := by
  decide

/-- Claim C7 (amended): the `InvalidIsaLength` error raised by `from_isa`
carries the human-readable message "ISA segment must be at least 106 bytes
long to extract delimiters". -/
theorem error_message_text :
    DelimiterError.displayMessage DelimiterError.InvalidIsaLength =
      "ISA segment must be at least 106 bytes long to extract delimiters" := by
  rfl

/-- Claim C8: `new`, the default, the accessors and `are_valid` are total:
for every input triple, including duplicates, they produce a result with no
failure path, and the only operation with an error outcome, `from_isa`,
either succeeds or fails with `InvalidIsaLength`. -/
theorem non_extracting_ops_are_total (a b c : Byte) (d : Delimiters) (bs : List Byte) :
    (Delimiters.new a b c).segment_terminator = a ∧
    (Delimiters.new a b c).element_separator = b ∧
    (Delimiters.new a b c).sub_element_separator = c ∧
    (d.are_valid = true ∨ d.are_valid = false) ∧
    Delimiters.defaultValue.are_valid = true ∧
    ((∃ d₀, Delimiters.from_isa bs = Except.ok d₀) ∨
      Delimiters.from_isa bs = Except.error DelimiterError.InvalidIsaLength) := by
  refine ⟨rfl, rfl, rfl, ?_, rfl, ?_⟩
  · cases h : d.are_valid
    · exact Or.inr rfl
    · exact Or.inl rfl
  · by_cases h : 106 ≤ bs.length
    · exact Or.inl ⟨_, from_isa_ok_of_le bs h⟩
    · exact Or.inr (from_isa_error_of_lt bs (by omega))

/-- Claim C9: `from_isa` inspects only the length and the bytes at offsets 3,
104 and 105: every input of length at least 106 succeeds with exactly those
bytes, whether or not it starts with the ISA tag, and duplicate bytes are
accepted verbatim — the all-42 input of length 106 succeeds although the
resulting set fails `are_valid`. -/
theorem from_isa_no_validation (bs : List Byte) (h : 106 ≤ bs.length) :
    Delimiters.from_isa bs =
      Except.ok (Delimiters.new (bs.getD 105 0) (bs.getD 3 0) (bs.getD 104 0)) ∧
    Delimiters.from_isa (List.replicate 106 42) =
      Except.ok (Delimiters.new 42 42 42) ∧
    (Delimiters.new 42 42 42).are_valid = false := by
  refine ⟨from_isa_ok_of_le bs h, ?_, rfl⟩
  rw [from_isa_ok_of_le _ (by decide)]
  rfl

/-- Claim C9 witness: the theorem applied to the length-106 all-42 input. -/
theorem from_isa_no_validation_witness :
    106 ≤ (List.replicate 106 42 : List Byte).length ∧
    (Delimiters.from_isa (List.replicate 106 42) =
      Except.ok
        (Delimiters.new ((List.replicate 106 42 : List Byte).getD 105 0)
          ((List.replicate 106 42 : List Byte).getD 3 0)
          ((List.replicate 106 42 : List Byte).getD 104 0)) ∧
    Delimiters.from_isa (List.replicate 106 42) =
      Except.ok (Delimiters.new 42 42 42) ∧
    (Delimiters.new 42 42 42).are_valid = false) :=
  ⟨by decide, from_isa_no_validation (List.replicate 106 42) (by decide)⟩

/-- Claim C10: for every byte sequence of length at least 106, extraction and
explicit construction agree: `from_isa bs` equals `Except.ok` of `new` applied
to the bytes at offsets 105, 3 and 104 in role order. -/
theorem from_isa_eq_new_of_extracted (bs : List Byte) (h : 106 ≤ bs.length) :
    Delimiters.from_isa bs =
      Except.ok (Delimiters.new (bs.getD 105 0) (bs.getD 3 0) (bs.getD 104 0)) :=
  from_isa_ok_of_le bs h

/-- Claim C10 witness: the theorem applied to a concrete length-106 input. -/
theorem from_isa_eq_new_of_extracted_witness :
    106 ≤ (List.replicate 106 88 : List Byte).length ∧
    Delimiters.from_isa (List.replicate 106 88) =
      Except.ok
        (Delimiters.new ((List.replicate 106 88 : List Byte).getD 105 0)
          ((List.replicate 106 88 : List Byte).getD 3 0)
          ((List.replicate 106 88 : List Byte).getD 104 0)) :=
  ⟨by decide, from_isa_eq_new_of_extracted (List.replicate 106 88) (by decide)⟩

end X12
